import Mathlib

/-!
Shallow embedding of the CarCrash_BCG analytics program
(src/crash_analysis.py).  Tables are lists of typed rows; the relational
operators the program delegates to the dataframe engine (filter, inner
join on CRASH_ID, group-by with count, order-by descending, limit,
dropDuplicates, subtract) are modelled as pure list functions.  String
columns are plain strings; the CRASH_ID column is `Option String`
because the aggregate count over a column counts only non-null values.
Order-sensitive operators (group order, sort ties, duplicate
representative) are engine-arbitrary in the source; the embedding fixes
a deterministic choice (first-listed order, stable insertion sort,
last-occurrence representative) consistently on both the code side and
the specification side.
-/

/-- Chars of the first list are an initial segment of the second. -/
def isPref : List Char → List Char → Bool
  | [], _ => true
  | _ :: _, [] => false
  | a :: as, b :: bs => a == b && isPref as bs

/-- The first list occurs as a contiguous segment of the second. -/
def subL (pat : List Char) : List Char → Bool
  | [] => isPref pat []
  | c :: rest => isPref pat (c :: rest) || subL pat rest

/-- Models pyspark Column.contains / Python substring containment:
`containsSub s pat` is true when `pat` occurs inside `s`. -/
def containsSub (s pat : String) : Bool := subL pat.data s.data

/-- Row of the Primary_Person_use table (columns read by the queries). -/
structure PersonRow where
  crash_id : Option String
  prsn_gndr_id : String
  prsn_injry_sev_id : String
  prsn_type_id : String
  prsn_airbag_id : String
  prsn_ethnicity_id : String
  prsn_alc_rslt_id : String
  drvr_zip : String
  drvr_lic_cls_id : String
  drvr_lic_state_id : String
deriving DecidableEq

/-- Row of the Units_use table (columns read by the queries). -/
structure UnitRow where
  crash_id : Option String
  veh_body_styl_id : String
  veh_make_id : String
  veh_color_id : String
deriving DecidableEq

/-- Row of the Primary_Units_use table used by query 9. -/
structure UnitPrimRow where
  crash_id : Option String
  veh_dmag_scl_1_id : String
  veh_dmag_scl_2_id : String
  fin_resp_type_id : String
deriving DecidableEq

/-- Row of the Charges_use table. -/
structure ChargeRow where
  crash_id : Option String
  charge : String
deriving DecidableEq

/-- Row of the Damages_use table. -/
structure DamageRow where
  crash_id : Option String
  damaged_property : String
deriving DecidableEq

/-- Spark groupBy(key).count(): one row per distinct key value with the
number of rows carrying that key. -/
def groupByCount {α κ : Type} [DecidableEq κ] (key : α → κ) (l : List α) :
    List (κ × Nat) :=
  ((l.map key).dedup).map
    (fun k => (k, (l.filter (fun a => decide (key a = k))).length))

/-- Spark groupBy(key).agg(count(col)): one row per distinct key value,
counting only the rows whose counted column is non-null. -/
def groupByCountCol {α κ : Type} [DecidableEq κ] (key : α → κ)
    (cnt : α → Option String) (l : List α) : List (κ × Nat) :=
  ((l.map key).dedup).map
    (fun k =>
      (k, (l.filter (fun a => decide (key a = k) && (cnt a).isSome)).length))

/-- Spark dropDuplicates([key]): one representative row per distinct key
value (the engine picks an arbitrary representative; the model keeps the
last occurrence, matching List.dedup on the keys). -/
def distinctBy {α κ : Type} [DecidableEq κ] (key : α → κ) : List α → List α
  | [] => []
  | a :: as =>
    if key a ∈ as.map key then distinctBy key as else a :: distinctBy key as

/-- Insert into a list kept in descending order of the numeric component
(stable: ties keep existing elements first). -/
def insertDesc {κ : Type} (x : κ × Nat) : List (κ × Nat) → List (κ × Nat)
  | [] => [x]
  | y :: ys => if y.2 < x.2 then x :: y :: ys else y :: insertDesc x ys

/-- Spark orderBy(col(cnt).desc()): deterministic stable sort by
descending numeric component. -/
def sortDesc {κ : Type} : List (κ × Nat) → List (κ × Nat)
  | [] => []
  | x :: xs => insertDesc x (sortDesc xs)

/-- Spark DataFrame.subtract: distinct rows of the left operand that do
not occur in the right operand. -/
def subtractL {β : Type} [DecidableEq β] (a b : List β) : List β :=
  a.dedup.filter (fun x => decide (x ∉ b))

/-- SQL equi-join key comparison: null keys never match. -/
def keyMatch : Option String → Option String → Bool
  | some a, some b => a == b
  | _, _ => false

/-- Inner join on CRASH_ID: every pair of rows whose (non-null) keys
agree, in left-major order. -/
def joinOn {α β : Type} (ka : α → Option String) (kb : β → Option String)
    (l : List α) (r : List β) : List (α × β) :=
  l.flatMap (fun a => (r.filter (fun b => keyMatch (ka a) (kb b))).map (fun b => (a, b)))

/-- Errors a query can surface: the AttributeError raised when a method
is called on the None returned by a missing dict lookup, the IndexError
from indexing an empty collected list, and the AnalysisException from
referencing a column the table does not have. -/
inductive PyError where
  | noneTypeAttributeError : PyError
  | indexError : PyError
  | analysisError : PyError
deriving DecidableEq

/-- analytics_1 row filter: males killed. -/
def q1pred (r : PersonRow) : Bool :=
  r.prsn_gndr_id == "MALE" && r.prsn_injry_sev_id == "KILLED"

/-- analytics_1 core: filter males killed, group by CRASH_ID, count rows
per group, keep groups with count >= 2, count the groups. -/
def a1core (t : List PersonRow) : Nat :=
  ((groupByCount (fun r => r.crash_id) (t.filter q1pred)).filter
    (fun g => decide (2 ≤ g.2))).length

/-- analytics_2 row filter: motorcycles. -/
def q2pred (r : UnitRow) : Bool :=
  r.veh_body_styl_id == "MOTORCYCLE" || r.veh_body_styl_id == "POLICE MOTORCYCLE"

/-- analytics_2 core: filter motorcycles, dropDuplicates on CRASH_ID,
count. -/
def a2core (t : List UnitRow) : Nat :=
  (distinctBy (fun r => r.crash_id) (t.filter q2pred)).length

/-- analytics_3 row filter: driver, airbag not deployed, killed. -/
def q3pred (r : PersonRow × UnitRow) : Bool :=
  r.1.prsn_type_id == "DRIVER" && r.1.prsn_airbag_id == "NOT DEPLOYED" &&
    r.1.prsn_injry_sev_id == "KILLED"

/-- analytics_3 core: join person and unit tables on CRASH_ID, filter,
group by make with row count, order descending, take 5, report makes. -/
def a3core (p : List PersonRow) (u : List UnitRow) : List String :=
  let j := (joinOn (fun r => r.crash_id) (fun r => r.crash_id) p u).filter q3pred
  ((sortDesc (groupByCount (fun r => r.2.veh_make_id) j)).take 5).map (fun g => g.1)

/-- analytics_4 license/driver filter. -/
def q4pred (r : PersonRow × ChargeRow) : Bool :=
  !(r.1.drvr_lic_cls_id == "UNLICENSED") && !(r.1.drvr_lic_cls_id == "UNKNOWN") &&
    r.1.prsn_type_id == "DRIVER"

/-- analytics_4 core: join person and charge tables on CRASH_ID, filter
licensed drivers, keep charges containing HIT AND RUN, dropDuplicates on
CRASH_ID, count. -/
def a4core (p : List PersonRow) (c : List ChargeRow) : Nat :=
  let j := (joinOn (fun r => r.crash_id) (fun r => r.crash_id) p c).filter q4pred
  let h := j.filter (fun r => containsSub r.2.charge "HIT AND RUN")
  (distinctBy (fun r => r.1.crash_id) h).length

/-- analytics_5 filter: rows whose gender column is not FEMALE. -/
def q5filtered (t : List PersonRow) : List PersonRow :=
  t.filter (fun r => !(r.prsn_gndr_id == "FEMALE"))

/-- analytics_5 grouping: per license state, aggregate count over
CRASH_ID (counts kept rows whose CRASH_ID is non-null). -/
def q5groups (t : List PersonRow) : List (String × Nat) :=
  groupByCountCol (fun r => r.drvr_lic_state_id) (fun r => r.crash_id) (q5filtered t)

/-- analytics_5 core: order groups descending, limit 1, index the
collected list at 0 (IndexError when it is empty). -/
def a5core (t : List PersonRow) : Except PyError (String × Nat) :=
  match sortDesc (q5groups t) with
  | [] => Except.error PyError.indexError
  | x :: _ => Except.ok x

/-- analytics_6 filter: injury severity is an actual injury. -/
def q6pred (r : PersonRow × UnitRow) : Bool :=
  !(r.1.prsn_injry_sev_id == "NOT INJURED") && !(r.1.prsn_injry_sev_id == "UNKNOWN") &&
    !(r.1.prsn_injry_sev_id == "NA")

/-- analytics_6 descending-ordered (make, injury_count) table: join
person and unit tables, filter to injuries, dropDuplicates on CRASH_ID,
group by make with aggregate count over CRASH_ID, order descending. -/
def a6sorted (p : List PersonRow) (u : List UnitRow) : List (String × Nat) :=
  sortDesc (groupByCountCol (fun r => r.2.veh_make_id) (fun r => r.1.crash_id)
    (distinctBy (fun r => r.1.crash_id)
      (((joinOn (fun r => r.crash_id) (fun r => r.crash_id) p u)).filter q6pred)))

/-- analytics_6 core: limit(5).subtract(limit(2)) on the ordered table. -/
def a6core (p : List PersonRow) (u : List UnitRow) : List (String × Nat) :=
  subtractL ((a6sorted p u).take 5) ((a6sorted p u).take 2)

/-- analytics_7 filter: body style is reported. -/
def q7pred (r : PersonRow × UnitRow) : Bool :=
  !(r.2.veh_body_styl_id == "UNKNOWN") && !(r.2.veh_body_styl_id == "NA") &&
    !(r.2.veh_body_styl_id == "NOT REPORTED")

/-- analytics_7 grouping: per (body style, ethnicity), aggregate count
over CRASH_ID, on the joined filtered table. -/
def q7groups (p : List PersonRow) (u : List UnitRow) :
    List ((String × String) × Nat) :=
  groupByCountCol (fun r => (r.2.veh_body_styl_id, r.1.prsn_ethnicity_id))
    (fun r => r.1.crash_id)
    (((joinOn (fun r => r.crash_id) (fun r => r.crash_id) p u)).filter q7pred)

/-- SQL rank() over (partition by body style order by count desc):
one plus the number of same-partition rows with strictly larger count. -/
def rankIn (groups : List ((String × String) × Nat))
    (g : (String × String) × Nat) : Nat :=
  1 + (groups.filter (fun h => h.1.1 == g.1.1 && decide (g.2 < h.2))).length

/-- analytics_7 core: keep the rank-1 rows of each body-style partition. -/
def a7core (p : List PersonRow) (u : List UnitRow) :
    List ((String × String) × Nat) :=
  (q7groups p u).filter (fun g => rankIn (q7groups p u) g == 1)

/-- analytics_8 filter: positive alcohol result and a ZIP that is not
the NULL marker. -/
def q8pred (r : PersonRow) : Bool :=
  r.prsn_alc_rslt_id == "Positive" && !(r.drvr_zip == "NULL")

/-- analytics_8 core: filter, dropDuplicates on CRASH_ID, group by ZIP
with row count, order descending, take 5. -/
def a8core (t : List PersonRow) : List (String × Nat) :=
  (sortDesc (groupByCount (fun r => r.drvr_zip)
    (distinctBy (fun r => r.crash_id) (t.filter q8pred)))).take 5

/-- Damage-scale ratings accepted by analytics_9. -/
def allowedRating : List String :=
  ["DAMAGED 5", "DAMAGED 6", "DAMAGED 7 HIGHEST"]

/-- Proof-of-insurance values accepted by analytics_9. -/
def insuredTypes : List String :=
  ["PROOF OF LIABILITY INSURANCE", "LIABILITY INSURANCE POLICY",
   "SURETY BOND", "CERTIFICATE OF SELF-INSURANCE"]

/-- analytics_9 filter: DAMAGED_PROPERTY contains NO DAMAGE, the first
damage-scale column is in the allowed set, and the financial
responsibility type is an insured proof (the second damage-scale column
is commented out in the source and not consulted). -/
def q9pred (r : UnitPrimRow × DamageRow) : Bool :=
  containsSub r.2.damaged_property "NO DAMAGE" &&
    allowedRating.contains r.1.veh_dmag_scl_1_id &&
    insuredTypes.contains r.1.fin_resp_type_id

/-- analytics_9 core: join Primary_Units_use and Damages_use on
CRASH_ID, filter, dropDuplicates on CRASH_ID, count. -/
def a9core (u : List UnitPrimRow) (d : List DamageRow) : Nat :=
  (distinctBy (fun r => r.1.crash_id)
    ((joinOn (fun r => r.crash_id) (fun r => r.crash_id) u d).filter q9pred)).length

/-- analytics_10 cut (a): driver rows of the person/charge join whose
charge contains SPEED, computed on the full tables. -/
def speedChargedRows (p : List PersonRow) (c : List ChargeRow) :
    List (PersonRow × ChargeRow) :=
  (joinOn (fun r => r.crash_id) (fun r => r.crash_id) p c).filter
    (fun r => r.1.prsn_type_id == "DRIVER" && containsSub r.2.charge "SPEED")

/-- analytics_10 cut (b): top 25 license states by distinct-crash count,
excluding NA/Unknown/Other, computed on the full person table. -/
def top25States (p : List PersonRow) : List String :=
  ((sortDesc ((groupByCountCol (fun r => r.drvr_lic_state_id) (fun r => r.crash_id)
      (distinctBy (fun r => r.crash_id) p)).filter
    (fun g => !(g.1 == "NA") && !(g.1 == "Unknown") && !(g.1 == "Other")))).take 25).map
      (fun g => g.1)

/-- analytics_10 cut (d): top 10 vehicle colors by distinct-crash count,
computed on the full units table. -/
def top10Colors (u : List UnitRow) : List String :=
  ((sortDesc (groupByCountCol (fun r => r.veh_color_id) (fun r => r.crash_id)
      (distinctBy (fun r => r.crash_id) u))).take 10).map (fun g => g.1)

/-- analytics_10 core, translated line by line from the source: the
speed-charged driver set, the top-25 state cut, and the top-10 color cut
are each computed on the full respective table, then the restricted
tables are joined, deduplicated by CRASH_ID, grouped by make with
aggregate count over CRASH_ID, ordered descending, and limited to 5. -/
def a10core (u : List UnitRow) (c : List ChargeRow) (p : List PersonRow) :
    List String :=
  let dOff0 := (joinOn (fun r => r.crash_id) (fun r => r.crash_id) p c).filter
    (fun r => r.1.prsn_type_id == "DRIVER" && containsSub r.2.charge "SPEED")
  let states0 := distinctBy (fun r => r.crash_id) p
  let states1 := groupByCountCol (fun r => r.drvr_lic_state_id) (fun r => r.crash_id) states0
  let states2 := states1.filter
    (fun g => !(g.1 == "NA") && !(g.1 == "Unknown") && !(g.1 == "Other"))
  let topStatesList := ((sortDesc states2).take 25).map (fun g => g.1)
  let dOff1 := dOff0.filter (fun r => topStatesList.contains r.1.drvr_lic_state_id)
  let colors0 := distinctBy (fun r => r.crash_id) u
  let colors1 := groupByCountCol (fun r => r.veh_color_id) (fun r => r.crash_id) colors0
  let topColorsList := ((sortDesc colors1).take 10).map (fun g => g.1)
  let u1 := u.filter (fun r => topColorsList.contains r.veh_color_id)
  let fj := joinOn (fun r => r.crash_id) (fun r => r.1.crash_id) u1 dOff1
  let fd := distinctBy (fun r => r.1.crash_id) fj
  let g := groupByCountCol (fun r => r.1.veh_make_id) (fun r => r.1.crash_id) fd
  ((sortDesc g).take 5).map (fun x => x.1)

/-- The final stage of query 10 as the specification describes it, taking
the three top-N cuts as already-computed inputs: restrict the driver
offence set to the state cut, restrict the units table to the color cut,
inner-join on CRASH_ID, deduplicate by CRASH_ID, group by make, order
descending, take the top 5. -/
def a10assembled (u : List UnitRow) (speedSet : List (PersonRow × ChargeRow))
    (statesCut : List String) (colorsCut : List String) : List String :=
  let offRestricted := speedSet.filter (fun r => statesCut.contains r.1.drvr_lic_state_id)
  let colorRestricted := u.filter (fun r => colorsCut.contains r.veh_color_id)
  let fj := joinOn (fun r => r.crash_id) (fun r => r.1.crash_id) colorRestricted offRestricted
  let fd := distinctBy (fun r => r.1.crash_id) fj
  let g := groupByCountCol (fun r => r.1.veh_make_id) (fun r => r.1.crash_id) fd
  ((sortDesc g).take 5).map (fun x => x.1)

/-- A loaded table of any of the five schemas. -/
inductive TableData where
  | person : List PersonRow → TableData
  | units : List UnitRow → TableData
  | unitsPrim : List UnitPrimRow → TableData
  | charges : List ChargeRow → TableData
  | damages : List DamageRow → TableData

/-- Project a loaded table to the person schema. -/
def TableData.asPerson : TableData → Option (List PersonRow)
  | .person t => some t
  | _ => none

/-- Project a loaded table to the units schema. -/
def TableData.asUnits : TableData → Option (List UnitRow)
  | .units t => some t
  | _ => none

/-- Project a loaded table to the Primary_Units schema. -/
def TableData.asUnitsPrim : TableData → Option (List UnitPrimRow)
  | .unitsPrim t => some t
  | _ => none

/-- Project a loaded table to the charges schema. -/
def TableData.asCharges : TableData → Option (List ChargeRow)
  | .charges t => some t
  | _ => none

/-- Project a loaded table to the damages schema. -/
def TableData.asDamages : TableData → Option (List DamageRow)
  | .damages t => some t
  | _ => none

/-- Python dict.get on the datasets mapping: some table when the key is
present, none otherwise (os.listdir yields distinct filenames, so keys
are distinct and the first match is the binding). -/
def dslookup (ds : List (String × TableData)) (k : String) : Option TableData :=
  (ds.find? (fun e => e.1 == k)).map (fun e => e.2)

/-- Python str.endswith(".csv"). -/
def strEndsCsv (s : String) : Bool := isPref (".csv".data.reverse) s.data.reverse

/-- os.path.splitext base of a name ending in ".csv": the name without
its last four characters (the dot of ".csv" is the last dot). -/
def stripCsvExt (s : String) : String := String.mk (s.data.take (s.data.length - 4))

/-- load_datasets: every file whose name ends in ".csv" is loaded under
its filename-derived key (name without extension). -/
def loadDatasets (files : List (String × TableData)) : List (String × TableData) :=
  files.filterMap (fun f => if strEndsCsv f.1 then some (stripCsvExt f.1, f.2) else none)

/-- Fetch and type a person table; a missing key models the
AttributeError raised by calling a DataFrame method on None, a
wrongly-shaped table models the AnalysisException for a missing column. -/
def getPerson (ds : List (String × TableData)) (k : String) :
    Except PyError (List PersonRow) :=
  match dslookup ds k with
  | none => Except.error PyError.noneTypeAttributeError
  | some td =>
    match td.asPerson with
    | none => Except.error PyError.analysisError
    | some t => Except.ok t

/-- Fetch and type a units table (see getPerson). -/
def getUnits (ds : List (String × TableData)) (k : String) :
    Except PyError (List UnitRow) :=
  match dslookup ds k with
  | none => Except.error PyError.noneTypeAttributeError
  | some td =>
    match td.asUnits with
    | none => Except.error PyError.analysisError
    | some t => Except.ok t

/-- Fetch and type a Primary_Units table (see getPerson). -/
def getUnitsPrim (ds : List (String × TableData)) (k : String) :
    Except PyError (List UnitPrimRow) :=
  match dslookup ds k with
  | none => Except.error PyError.noneTypeAttributeError
  | some td =>
    match td.asUnitsPrim with
    | none => Except.error PyError.analysisError
    | some t => Except.ok t

/-- Fetch and type a charges table (see getPerson). -/
def getCharges (ds : List (String × TableData)) (k : String) :
    Except PyError (List ChargeRow) :=
  match dslookup ds k with
  | none => Except.error PyError.noneTypeAttributeError
  | some td =>
    match td.asCharges with
    | none => Except.error PyError.analysisError
    | some t => Except.ok t

/-- Fetch and type a damages table (see getPerson). -/
def getDamages (ds : List (String × TableData)) (k : String) :
    Except PyError (List DamageRow) :=
  match dslookup ds k with
  | none => Except.error PyError.noneTypeAttributeError
  | some td =>
    match td.asDamages with
    | none => Except.error PyError.analysisError
    | some t => Except.ok t

/-- analytics_1 on the datasets mapping. -/
def analytics_1 (ds : List (String × TableData)) : Except PyError Nat := do
  let t ← getPerson ds "Primary_Person_use"
  return a1core t

/-- analytics_2 on the datasets mapping. -/
def analytics_2 (ds : List (String × TableData)) : Except PyError Nat := do
  let t ← getUnits ds "Units_use"
  return a2core t

/-- analytics_3 on the datasets mapping. -/
def analytics_3 (ds : List (String × TableData)) : Except PyError (List String) := do
  let p ← getPerson ds "Primary_Person_use"
  let u ← getUnits ds "Units_use"
  return a3core p u

/-- analytics_4 on the datasets mapping. -/
def analytics_4 (ds : List (String × TableData)) : Except PyError Nat := do
  let p ← getPerson ds "Primary_Person_use"
  let c ← getCharges ds "Charges_use"
  return a4core p c

/-- analytics_5 on the datasets mapping. -/
def analytics_5 (ds : List (String × TableData)) : Except PyError (String × Nat) := do
  let t ← getPerson ds "Primary_Person_use"
  a5core t

/-- analytics_6 on the datasets mapping. -/
def analytics_6 (ds : List (String × TableData)) :
    Except PyError (List (String × Nat)) := do
  let p ← getPerson ds "Primary_Person_use"
  let u ← getUnits ds "Units_use"
  return a6core p u

/-- analytics_7 on the datasets mapping. -/
def analytics_7 (ds : List (String × TableData)) :
    Except PyError (List ((String × String) × Nat)) := do
  let p ← getPerson ds "Primary_Person_use"
  let u ← getUnits ds "Units_use"
  return a7core p u

/-- analytics_8 on the datasets mapping. -/
def analytics_8 (ds : List (String × TableData)) :
    Except PyError (List (String × Nat)) := do
  let t ← getPerson ds "Primary_Person_use"
  return a8core t

/-- analytics_9 on the datasets mapping. -/
def analytics_9 (ds : List (String × TableData)) : Except PyError Nat := do
  let u ← getUnitsPrim ds "Primary_Units_use"
  let d ← getDamages ds "Damages_use"
  return a9core u d

/-- analytics_10 on the datasets mapping; note the looked-up keys carry
a df_ prefix, unlike the filename-derived keys the loader produces. -/
def analytics_10 (ds : List (String × TableData)) : Except PyError (List String) := do
  let u ← getUnits ds "df_Units_use"
  let c ← getCharges ds "df_Charges_use"
  let p ← getPerson ds "df_Primary_Person_use"
  return a10core u c p

/-- Specification-side count for query 1: the number of distinct crash
identifier values of the table that have at least two MALE-and-KILLED
person rows. -/
def spec1count (t : List PersonRow) : Nat :=
  ((t.map (fun r => r.crash_id)).dedup).countP
    (fun c => decide (2 ≤ (t.filter (fun r => q1pred r && decide (r.crash_id = c))).length))

/-- Replace the second damage-scale column of a Primary_Units row. -/
def updScl2 (v : String) (r : UnitPrimRow) : UnitPrimRow :=
  ⟨r.crash_id, r.veh_dmag_scl_1_id, v, r.fin_resp_type_id⟩

/-- The filename-derived dataset names the loader can produce from the
repository CSV files, with their ".csv" extension. -/
def stdCsvNames : List String :=
  ["Primary_Person_use.csv", "Units_use.csv", "Charges_use.csv",
   "Damages_use.csv", "Primary_Units_use.csv"]

/-! Generic lemmas about the modelled relational operators. -/

theorem perm_insertDesc {κ : Type} (x : κ × Nat) (l : List (κ × Nat)) :
    List.Perm (insertDesc x l) (x :: l) := by
  induction l with
  | nil => simp [insertDesc]
  | cons y ys ih =>
    by_cases h : y.2 < x.2
    · simp [insertDesc, h]
    · simp only [insertDesc, if_neg h]
      exact (List.Perm.cons y ih).trans (List.Perm.swap x y ys)

theorem perm_sortDesc {κ : Type} (l : List (κ × Nat)) :
    List.Perm (sortDesc l) l := by
  induction l with
  | nil => simp [sortDesc]
  | cons x xs ih =>
    exact (perm_insertDesc x (sortDesc xs)).trans (List.Perm.cons x ih)

theorem mem_sortDesc {κ : Type} {l : List (κ × Nat)} {a : κ × Nat} :
    a ∈ sortDesc l ↔ a ∈ l :=
  (perm_sortDesc l).mem_iff

theorem mem_insertDesc {κ : Type} {x a : κ × Nat} {l : List (κ × Nat)} :
    a ∈ insertDesc x l ↔ a = x ∨ a ∈ l := by
  rw [(perm_insertDesc x l).mem_iff, List.mem_cons]

theorem sorted_insertDesc {κ : Type} {x : κ × Nat} {l : List (κ × Nat)}
    (h : l.Pairwise (fun a b => b.2 ≤ a.2)) :
    (insertDesc x l).Pairwise (fun a b => b.2 ≤ a.2) := by
  induction l with
  | nil => simp [insertDesc]
  | cons y ys ih =>
    rcases List.pairwise_cons.mp h with ⟨hy, hys⟩
    by_cases hlt : y.2 < x.2
    · simp only [insertDesc, if_pos hlt]
      refine List.pairwise_cons.mpr ⟨?_, h⟩
      intro z hz
      rcases List.mem_cons.mp hz with rfl | hz2
      · exact Nat.le_of_lt hlt
      · exact Nat.le_trans (hy z hz2) (Nat.le_of_lt hlt)
    · simp only [insertDesc, if_neg hlt]
      refine List.pairwise_cons.mpr ⟨?_, ih hys⟩
      intro z hz
      rcases mem_insertDesc.mp hz with rfl | hz2
      · exact Nat.le_of_not_lt hlt
      · exact hy z hz2

theorem sorted_sortDesc {κ : Type} (l : List (κ × Nat)) :
    (sortDesc l).Pairwise (fun a b => b.2 ≤ a.2) := by
  induction l with
  | nil => simp [sortDesc]
  | cons x xs ih => exact sorted_insertDesc ih

theorem head_sortDesc_max {κ : Type} {l : List (κ × Nat)} {x : κ × Nat}
    {rest : List (κ × Nat)} (h : sortDesc l = x :: rest) :
    ∀ g ∈ l, g.2 ≤ x.2 := by
  intro g hg
  have hmem : g ∈ x :: rest := h ▸ mem_sortDesc.mpr hg
  rcases List.mem_cons.mp hmem with rfl | hr
  · exact Nat.le_refl _
  · have hs := sorted_sortDesc l
    rw [h] at hs
    exact (List.pairwise_cons.mp hs).1 g hr

theorem mem_map_pair {κ : Type} {ks : List κ} {c : κ → Nat} {k : κ} {n : Nat} :
    (k, n) ∈ ks.map (fun x => (x, c x)) ↔ k ∈ ks ∧ n = c k := by
  constructor
  · intro h
    rcases List.mem_map.mp h with ⟨a, ha, hk⟩
    rcases Prod.mk.injEq .. ▸ hk with ⟨rfl, rfl⟩
    exact ⟨ha, rfl⟩
  · rintro ⟨hk, rfl⟩
    exact List.mem_map.mpr ⟨k, hk, rfl⟩

theorem map_distinctBy {α κ : Type} [DecidableEq κ] (key : α → κ) (l : List α) :
    (distinctBy key l).map key = (l.map key).dedup := by
  induction l with
  | nil => simp [distinctBy]
  | cons a as ih =>
    by_cases h : key a ∈ as.map key
    · simp only [distinctBy, if_pos h, List.map_cons, List.dedup_cons_of_mem h]
      exact ih
    · simp only [distinctBy, if_neg h, List.map_cons, List.dedup_cons_of_not_mem h]
      exact congrArg (key a :: ·) ih

theorem length_distinctBy {α κ : Type} [DecidableEq κ] (key : α → κ) (l : List α) :
    (distinctBy key l).length = ((l.map key).dedup).length := by
  rw [← map_distinctBy key l, List.length_map]

theorem filter_map_comm {α β : Type} (h : α → β) (q : β → Bool) (l : List α) :
    (l.map h).filter q = (l.filter (fun a => q (h a))).map h := by
  simp [List.filter_map, Function.comp_def]

theorem countP_dedup_card {κ : Type} [DecidableEq κ] (K : List κ) (q : κ → Bool) :
    K.dedup.countP q = (K.toFinset.filter (fun k => q k = true)).card := by
  rw [List.countP_eq_length_filter]
  have hnd : (K.dedup.filter q).Nodup := (List.nodup_dedup K).filter q
  rw [← List.toFinset_card_of_nodup hnd]
  congr 1
  ext a
  simp [List.mem_dedup, List.mem_filter]

theorem dedup_length_append_mem {κ : Type} [DecidableEq κ] {ks : List κ} {k : κ}
    (h : k ∈ ks) : ((ks ++ [k]).dedup).length = ks.dedup.length := by
  rw [← List.card_toFinset, ← List.card_toFinset]
  congr 1
  rw [List.toFinset_append]
  apply Finset.union_eq_left.mpr
  simp [h]

/-- A MALE/KILLED person row with the given crash identifier. -/
def mkMaleKilled (cid : Option String) : PersonRow :=
  ⟨cid, "MALE", "KILLED", "", "", "", "", "", "", ""⟩

/-- The 3-row synthetic Primary_Person_use table of the specification:
two MALE/KILLED rows sharing crash id C1 and one with crash id C2. -/
def c1table : List PersonRow :=
  [mkMaleKilled (some "C1"), mkMaleKilled (some "C1"), mkMaleKilled (some "C2")]

theorem a1core_eq_spec1count (t : List PersonRow) : a1core t = spec1count t := by
  have h1 : a1core t = ((t.filter q1pred).map (fun r => r.crash_id)).dedup.countP
      (fun c => decide
        (2 ≤ ((t.filter q1pred).filter (fun a => decide (a.crash_id = c))).length)) := by
    unfold a1core groupByCount
    rw [filter_map_comm, List.length_map, ← List.countP_eq_length_filter]
  have h2 : (fun c => decide
        (2 ≤ ((t.filter q1pred).filter (fun a => decide (a.crash_id = c))).length))
      = (fun c => decide
        (2 ≤ (t.filter (fun r => q1pred r && decide (r.crash_id = c))).length)) := by
    funext c
    rw [List.filter_filter]
    have hcomm : (fun a => decide (a.crash_id = c) && q1pred a)
        = (fun r => q1pred r && decide (r.crash_id = c)) := by
      funext a
      exact Bool.and_comm _ _
    rw [hcomm]
  rw [h1, h2]
  unfold spec1count
  rw [countP_dedup_card, countP_dedup_card]
  congr 1
  ext a
  simp only [Finset.mem_filter, List.mem_toFinset]
  constructor
  · rintro ⟨ha, hPa⟩
    refine ⟨?_, hPa⟩
    rcases List.mem_map.mp ha with ⟨r, hr, rfl⟩
    exact List.mem_map.mpr ⟨r, (List.mem_filter.mp hr).1, rfl⟩
  · rintro ⟨_, hPa⟩
    refine ⟨?_, hPa⟩
    have hlen : 2 ≤ (t.filter (fun r => q1pred r && decide (r.crash_id = a))).length :=
      of_decide_eq_true hPa
    have hne : t.filter (fun r => q1pred r && decide (r.crash_id = a)) ≠ [] := by
      intro hnil
      rw [hnil] at hlen
      simp at hlen
    rcases List.exists_mem_of_ne_nil _ hne with ⟨r, hr⟩
    rcases List.mem_filter.mp hr with ⟨hrt, hb⟩
    simp only [Bool.and_eq_true] at hb
    rcases hb with ⟨hq1, hcid⟩
    refine List.mem_map.mpr ⟨r, List.mem_filter.mpr ⟨hrt, hq1⟩, ?_⟩
    exact of_decide_eq_true hcid

/-- C1: for every Primary_Person_use table, query 1 reports the number of
distinct crash identifiers having at least 2 MALE/KILLED person rows;
in particular the 3-row table with two such rows on crash C1 and one on
crash C2 yields count 1. -/
theorem claim1_query1_counts_distinct_crashes :
    (∀ t : List PersonRow, a1core t = spec1count t) ∧ a1core c1table = 1 :=
  ⟨a1core_eq_spec1count, by decide⟩

/-- C2: evaluated on a datasets mapping missing its tables, every query
of the catalog fails with the null-reference-style NoneType attribute
error, not a clear dataset-not-found condition (the claim's requirement
is not met by the code). -/
theorem claim2_missing_dataset_nonetype_eval :
    analytics_1 [] = Except.error PyError.noneTypeAttributeError ∧
    analytics_2 [] = Except.error PyError.noneTypeAttributeError ∧
    analytics_3 [] = Except.error PyError.noneTypeAttributeError ∧
    analytics_4 [] = Except.error PyError.noneTypeAttributeError ∧
    analytics_5 [] = Except.error PyError.noneTypeAttributeError ∧
    analytics_6 [] = Except.error PyError.noneTypeAttributeError ∧
    analytics_7 [] = Except.error PyError.noneTypeAttributeError ∧
    analytics_8 [] = Except.error PyError.noneTypeAttributeError ∧
    analytics_9 [] = Except.error PyError.noneTypeAttributeError ∧
    analytics_10 [] = Except.error PyError.noneTypeAttributeError :=
  ⟨rfl, rfl, rfl, rfl, rfl, rfl, rfl, rfl, rfl, rfl⟩

theorem dslookup_loadDatasets_none (k : String) (files : List (String × TableData))
    (h : ∀ f ∈ files, ¬(stripCsvExt f.1 = k)) :
    dslookup (loadDatasets files) k = none := by
  induction files with
  | nil => rfl
  | cons f fs ih =>
    have hf : ¬(stripCsvExt f.1 = k) := h f (List.mem_cons_self f fs)
    have hrest : ∀ g ∈ fs, ¬(stripCsvExt g.1 = k) :=
      fun g hg => h g (List.mem_cons_of_mem f hg)
    unfold loadDatasets
    rw [List.filterMap_cons]
    by_cases hcsv : strEndsCsv f.1
    · simp only [if_pos hcsv]
      unfold dslookup
      rw [List.find?_cons_of_neg _ (by simpa using beq_eq_false_iff_ne.mpr hf)]
      exact ih hrest
    · simp only [if_neg hcsv]
      exact ih hrest

/-- C9: query 10 looks up df_Units_use, df_Charges_use and
df_Primary_Person_use, names that differ from the filename-derived ones
the loader produces, so on every mapping the loader builds from the
repository CSV files all three lookups return the absent value. -/
theorem claim9_df_prefixed_lookups_absent (files : List (String × TableData))
    (h : ∀ f ∈ files, f.1 ∈ stdCsvNames) :
    dslookup (loadDatasets files) "df_Units_use" = none ∧
    dslookup (loadDatasets files) "df_Charges_use" = none ∧
    dslookup (loadDatasets files) "df_Primary_Person_use" = none := by
  have hstrip : ∀ s ∈ stdCsvNames,
      ¬(stripCsvExt s = "df_Units_use") ∧ ¬(stripCsvExt s = "df_Charges_use") ∧
        ¬(stripCsvExt s = "df_Primary_Person_use") := by decide
  refine ⟨?_, ?_, ?_⟩
  · exact dslookup_loadDatasets_none _ files (fun f hf => (hstrip f.1 (h f hf)).1)
  · exact dslookup_loadDatasets_none _ files (fun f hf => (hstrip f.1 (h f hf)).2.1)
  · exact dslookup_loadDatasets_none _ files (fun f hf => (hstrip f.1 (h f hf)).2.2)

/-- A directory of the three CSV files query 10 would need, named as the
repository names them. -/
def demoFiles : List (String × TableData) :=
  [("Units_use.csv", TableData.units []), ("Charges_use.csv", TableData.charges []),
   ("Primary_Person_use.csv", TableData.person [])]

/-- Witness for C9 on a concrete loader input. -/
theorem claim9_witness :
    dslookup (loadDatasets demoFiles) "df_Units_use" = none ∧
    dslookup (loadDatasets demoFiles) "df_Charges_use" = none ∧
    dslookup (loadDatasets demoFiles) "df_Primary_Person_use" = none :=
  claim9_df_prefixed_lookups_absent demoFiles (by decide)

theorem q5_empty_chain (t : List PersonRow) :
    q5filtered t = [] ↔ sortDesc (q5groups t) = [] := by
  constructor
  · intro hf
    unfold q5groups groupByCountCol
    rw [hf]
    rfl
  · intro hs
    have hlen := (perm_sortDesc (q5groups t)).length_eq
    rw [hs] at hlen
    have hg : q5groups t = [] := List.length_eq_zero.mp hlen.symm
    unfold q5groups groupByCountCol at hg
    have hd := List.map_eq_nil_iff.mp hg
    have hm := (List.dedup_eq_nil _).mp hd
    exact List.map_eq_nil_iff.mp hm

/-- C10: query 5 succeeds exactly when the person table has a row whose
gender is not FEMALE; on an all-FEMALE (or empty) table the indexing of
the empty collected list fails with an IndexError instead of reporting
an empty result. -/
theorem claim10_query5_empty_index_error (t : List PersonRow) :
    (q5filtered t = [] → a5core t = Except.error PyError.indexError) ∧
    ((∃ r ∈ t, r.prsn_gndr_id ≠ "FEMALE") ↔ ∃ x, a5core t = Except.ok x) := by
  have hiff : (∃ r ∈ t, r.prsn_gndr_id ≠ "FEMALE") ↔ q5filtered t ≠ [] := by
    unfold q5filtered
    rw [Ne, List.filter_eq_nil_iff]
    push_neg
    constructor
    · rintro ⟨r, hrt, hne⟩
      exact ⟨r, hrt, by simp [hne]⟩
    · rintro ⟨r, hrt, hb⟩
      refine ⟨r, hrt, ?_⟩
      simpa using hb
  constructor
  · intro hf
    have hs := (q5_empty_chain t).mp hf
    simp [a5core, hs]
  · rw [hiff]
    constructor
    · intro hne
      have hsne : sortDesc (q5groups t) ≠ [] := fun hs => hne ((q5_empty_chain t).mpr hs)
      cases hs : sortDesc (q5groups t) with
      | nil => exact absurd hs hsne
      | cons x rest => exact ⟨x, by simp [a5core, hs]⟩
    · rintro ⟨x, hx⟩ hnil
      have hs := (q5_empty_chain t).mp hnil
      simp [a5core, hs] at hx

/-- A one-row all-FEMALE person table. -/
def allFemaleTable : List PersonRow :=
  [⟨some "C1", "FEMALE", "", "", "", "", "", "", "", "TX"⟩]

/-- Witness for C10: on the all-FEMALE table query 5 raises IndexError. -/
theorem claim10_witness : a5core allFemaleTable = Except.error PyError.indexError :=
  (claim10_query5_empty_index_error allFemaleTable).1 (by decide)

/-- C5: query 5 keeps exactly the rows whose gender differs from the
exact string FEMALE, its per-state aggregate counts kept rows with a
non-null crash identifier (not distinct crashes), and the reported pair
is a group attaining the maximal such count. -/
theorem claim5_query5_nonfemale_row_counts (t : List PersonRow) :
    (∀ r, r ∈ q5filtered t ↔ r ∈ t ∧ r.prsn_gndr_id ≠ "FEMALE") ∧
    (∀ s n, (s, n) ∈ q5groups t →
      n = ((q5filtered t).filter
        (fun r => decide (r.drvr_lic_state_id = s) && r.crash_id.isSome)).length) ∧
    (∀ s n, a5core t = Except.ok (s, n) →
      (s, n) ∈ q5groups t ∧ ∀ g ∈ q5groups t, g.2 ≤ n) := by
  refine ⟨?_, ?_, ?_⟩
  · intro r
    unfold q5filtered
    rw [List.mem_filter]
    simp
  · intro s n hmem
    unfold q5groups groupByCountCol at hmem
    exact (mem_map_pair.mp hmem).2
  · intro s n hok
    cases hs : sortDesc (q5groups t) with
    | nil => simp [a5core, hs] at hok
    | cons x rest =>
      have hx : x = (s, n) := by simpa [a5core, hs] using hok
      subst hx
      constructor
      · have hmem : (s, n) ∈ sortDesc (q5groups t) := by
          rw [hs]
          exact List.mem_cons_self _ _
        exact mem_sortDesc.mp hmem
      · intro g hg
        exact head_sortDesc_max hs g hg

/-- Person table with two non-FEMALE TX rows and one FEMALE row. -/
def txTable : List PersonRow :=
  [⟨some "K1", "MALE", "", "", "", "", "", "", "", "TX"⟩,
   ⟨some "K2", "UNKNOWN", "", "", "", "", "", "", "", "TX"⟩,
   ⟨some "K3", "FEMALE", "", "", "", "", "", "", "", "CA"⟩]

/-- Witness for C5: on the concrete table the reported group (TX, 2) is
in the grouping and attains the maximal count. -/
theorem claim5_witness :
    ("TX", 2) ∈ q5groups txTable ∧ ∀ g ∈ q5groups txTable, g.2 ≤ 2 :=
  (claim5_query5_nonfemale_row_counts txTable).2.2 "TX" 2 (by rfl)

/-- C8: appending a motorcycle (or police motorcycle) row whose crash
identifier already occurs among the filtered rows leaves the distinct
crash count of query 2 unchanged. -/
theorem claim8_query2_duplicate_invariant (t : List UnitRow) (r : UnitRow)
    (hbody : r.veh_body_styl_id = "MOTORCYCLE" ∨ r.veh_body_styl_id = "POLICE MOTORCYCLE")
    (hdup : r.crash_id ∈ (t.filter q2pred).map (fun x => x.crash_id)) :
    a2core (t ++ [r]) = a2core t := by
  have hpred : q2pred r = true := by
    unfold q2pred
    rcases hbody with h | h <;> simp [h]
  unfold a2core
  rw [List.filter_append]
  have hsingle : List.filter q2pred [r] = [r] := by simp [hpred]
  rw [hsingle, length_distinctBy, length_distinctBy, List.map_append]
  exact dedup_length_append_mem hdup

/-- One-motorcycle base table for the C8 witness. -/
def c8base : List UnitRow := [⟨some "K1", "MOTORCYCLE", "", ""⟩]

/-- Extra two-wheeler row reusing crash id K1 for the C8 witness. -/
def c8extra : UnitRow := ⟨some "K1", "POLICE MOTORCYCLE", "", ""⟩

/-- Witness for C8 on a concrete table. -/
theorem claim8_witness : a2core (c8base ++ [c8extra]) = a2core c8base :=
  claim8_query2_duplicate_invariant c8base c8extra (Or.inr rfl) (by decide)

theorem joinOn_map_left {α β : Type} (ka : α → Option String)
    (kb : β → Option String) (g : α → α) (hk : ∀ a, ka (g a) = ka a)
    (l : List α) (r : List β) :
    joinOn ka kb (l.map g) r = (joinOn ka kb l r).map (fun x => (g x.1, x.2)) := by
  induction l with
  | nil => rfl
  | cons a as ih =>
    unfold joinOn at *
    rw [List.map_cons, List.flatMap_cons, List.flatMap_cons, List.map_append, ih, hk a]
    congr 1
    rw [List.map_map]
    rfl

theorem a9core_scl2_invariant (u : List UnitPrimRow) (d : List DamageRow)
    (f : UnitPrimRow → String) :
    a9core (u.map (fun x => updScl2 (f x) x)) d = a9core u d := by
  unfold a9core
  rw [length_distinctBy, length_distinctBy]
  rw [joinOn_map_left (fun r : UnitPrimRow => r.crash_id)
    (fun r : DamageRow => r.crash_id)
    (fun x : UnitPrimRow => updScl2 (f x) x) (fun a => rfl) u d]
  rw [filter_map_comm, List.map_map]
  have hq : (fun a : UnitPrimRow × DamageRow =>
      q9pred ((fun x : UnitPrimRow × DamageRow => (updScl2 (f x.1) x.1, x.2)) a))
      = q9pred := by
    funext a
    rfl
  have hkey : ((fun r : UnitPrimRow × DamageRow => r.1.crash_id) ∘
      (fun x : UnitPrimRow × DamageRow => (updScl2 (f x.1) x.1, x.2)))
      = (fun r : UnitPrimRow × DamageRow => r.1.crash_id) := by
    funext a
    rfl
  rw [hq, hkey]

/-- C7: a joined row whose first damage-scale value is allowed but whose
damaged-property text does not contain NO DAMAGE fails the query 9
filter, and the second damage-scale column never affects the result. -/
theorem claim7_query9_first_scale_only :
    (∀ r : UnitPrimRow × DamageRow,
        allowedRating.contains r.1.veh_dmag_scl_1_id = true →
        containsSub r.2.damaged_property "NO DAMAGE" = false →
        q9pred r = false) ∧
    (∀ (u : List UnitPrimRow) (d : List DamageRow) (f : UnitPrimRow → String),
        a9core (u.map (fun x => updScl2 (f x) x)) d = a9core u d) := by
  constructor
  · intro r _ hno
    unfold q9pred
    rw [hno]
    rfl
  · exact a9core_scl2_invariant

/-- Joined row with allowed damage scale but no NO DAMAGE text. -/
def c7row : UnitPrimRow × DamageRow :=
  (⟨some "K1", "DAMAGED 5", "X", "SURETY BOND"⟩, ⟨some "K1", "TREE FELL"⟩)

/-- Primary_Units table for the C7 witness. -/
def c7units : List UnitPrimRow := [⟨some "K1", "DAMAGED 5", "A", "SURETY BOND"⟩]

/-- Damages table for the C7 witness. -/
def c7damages : List DamageRow := [⟨some "K1", "NO DAMAGE FOUND"⟩]

/-- Witness for C7 on concrete rows and tables. -/
theorem claim7_witness :
    q9pred c7row = false ∧
    a9core (c7units.map (fun x => updScl2 "B" x)) c7damages = a9core c7units c7damages :=
  ⟨claim7_query9_first_scale_only.1 c7row (by decide) (by decide),
   claim7_query9_first_scale_only.2 c7units c7damages (fun x => "B")⟩

theorem filter_not_mem_take {β : Type} [DecidableEq β] :
    ∀ (t : List β) (k : Nat), t.Nodup →
      t.filter (fun x => decide (x ∉ t.take k)) = t.drop k := by
  intro t
  induction t with
  | nil =>
    intro k _
    simp
  | cons a t2 ih =>
    intro k hnd
    obtain ⟨hna, hnd2⟩ := List.nodup_cons.mp hnd
    cases k with
    | zero => simp
    | succ k2 =>
      rw [List.take_succ_cons, List.drop_succ_cons]
      rw [List.filter_cons]
      have hpa : (decide (a ∉ a :: t2.take k2)) = false := by simp
      rw [hpa]
      simp only [Bool.false_eq_true, if_false]
      have hcongr : t2.filter (fun x => decide (x ∉ a :: t2.take k2))
          = t2.filter (fun x => decide (x ∉ t2.take k2)) := by
        apply List.filter_congr
        intro x hx
        have hxa : x ≠ a := fun hxa => hna (hxa ▸ hx)
        simp [List.mem_cons, hxa]
      rw [hcongr]
      exact ih k2 hnd2

theorem nodup_groupByCountCol {α κ : Type} [DecidableEq κ] (key : α → κ)
    (cnt : α → Option String) (l : List α) : (groupByCountCol key cnt l).Nodup := by
  unfold groupByCountCol
  refine List.Nodup.map ?_ (List.nodup_dedup _)
  intro x y hxy
  exact congrArg Prod.fst hxy

theorem nodup_a6sorted (p : List PersonRow) (u : List UnitRow) :
    (a6sorted p u).Nodup := by
  unfold a6sorted
  exact (perm_sortDesc _).symm.nodup (nodup_groupByCountCol _ _ _)

/-- C3: query 6 reports exactly the set difference top5 − top2 of the
descending-ordered (make, injury_count) table, and that report has at
most 3 rows. -/
theorem claim3_query6_top5_minus_top2 (p : List PersonRow) (u : List UnitRow) :
    a6core p u = subtractL ((a6sorted p u).take 5) ((a6sorted p u).take 2) ∧
    (a6core p u).length ≤ 3 := by
  refine ⟨rfl, ?_⟩
  have htake5 : ((a6sorted p u).take 5).Nodup :=
    (List.take_sublist _ _).nodup (nodup_a6sorted p u)
  unfold a6core subtractL
  rw [List.Nodup.dedup htake5]
  have ht : (a6sorted p u).take 2 = ((a6sorted p u).take 5).take 2 := by
    rw [List.take_take]
    norm_num
  rw [ht, filter_not_mem_take _ 2 htake5]
  rw [List.length_drop, List.length_take]
  omega

theorem q7groups_key_mem {p : List PersonRow} {u : List UnitRow}
    {bs eth : String} {n : Nat} (h : ((bs, eth), n) ∈ q7groups p u) :
    ∃ r ∈ (joinOn (fun r => r.crash_id) (fun r => r.crash_id) p u).filter q7pred,
      r.2.veh_body_styl_id = bs ∧ r.1.prsn_ethnicity_id = eth := by
  unfold q7groups groupByCountCol at h
  have hk := (mem_map_pair.mp h).1
  rw [List.mem_dedup] at hk
  rcases List.mem_map.mp hk with ⟨r, hr, hkey⟩
  exact ⟨r, hr, congrArg Prod.fst hkey, congrArg Prod.snd hkey⟩

/-- C6: query 7 reports, per body style outside the excluded markers,
exactly the (body style, ethnicity, count) groups whose count is maximal
within that body style, so exact ties at the top all appear. -/
theorem claim6_query7_all_top_ties (p : List PersonRow) (u : List UnitRow)
    (bs eth : String) (n : Nat) :
    ((bs, eth), n) ∈ a7core p u ↔
      (¬(bs = "UNKNOWN" ∨ bs = "NA" ∨ bs = "NOT REPORTED") ∧
        ((bs, eth), n) ∈ q7groups p u ∧
        ∀ eth2 n2, ((bs, eth2), n2) ∈ q7groups p u → n2 ≤ n) := by
  unfold a7core
  rw [List.mem_filter]
  constructor
  · rintro ⟨hmem, hrank⟩
    refine ⟨?_, hmem, ?_⟩
    · rcases q7groups_key_mem hmem with ⟨r, hr, hbs, _⟩
      have hq := (List.mem_filter.mp hr).2
      unfold q7pred at hq
      simp only [Bool.and_eq_true, Bool.not_eq_true', beq_eq_false_iff_ne] at hq
      rw [hbs] at hq
      rintro (rfl | rfl | rfl)
      · exact hq.1.1 rfl
      · exact hq.1.2 rfl
      · exact hq.2 rfl
    · intro eth2 n2 hmem2
      unfold rankIn at hrank
      have h1 := beq_iff_eq.mp hrank
      have hlen : ((q7groups p u).filter (fun h2 =>
          h2.1.1 == ((bs, eth), n).1.1 && decide (((bs, eth), n).2 < h2.2))).length = 0 := by
        omega
      rw [List.length_eq_zero] at hlen
      have hf := List.filter_eq_nil_iff.mp hlen _ hmem2
      simp only [Bool.and_eq_true, decide_eq_true_eq, beq_iff_eq] at hf
      push_neg at hf
      simp at hf
      omega
  · rintro ⟨_, hmem, hmax⟩
    refine ⟨hmem, ?_⟩
    unfold rankIn
    have hlen : ((q7groups p u).filter (fun h2 =>
        h2.1.1 == ((bs, eth), n).1.1 && decide (((bs, eth), n).2 < h2.2))).length = 0 := by
      rw [List.length_eq_zero]
      apply List.filter_eq_nil_iff.mpr
      rintro ⟨⟨gb, ge⟩, gn⟩ hg hgtrue
      simp only [Bool.and_eq_true, decide_eq_true_eq, beq_iff_eq] at hgtrue
      obtain ⟨hbs2, hlt⟩ := hgtrue
      have hle : gn ≤ n := hmax ge gn (by rw [← hbs2] at hmem ⊢; exact hg)
      omega
    rw [hlen]
    rfl

/-- Person table for the C6 tie witness: two ethnicities, one crash each. -/
def tiePersons : List PersonRow :=
  [⟨some "X1", "", "", "", "", "ETH A", "", "", "", ""⟩,
   ⟨some "X2", "", "", "", "", "ETH B", "", "", "", ""⟩]

/-- Units table for the C6 tie witness: both crashes are SUVs. -/
def tieUnits : List UnitRow :=
  [⟨some "X1", "SUV", "", ""⟩, ⟨some "X2", "SUV", "", ""⟩]

theorem tieGroups_eval :
    q7groups tiePersons tieUnits = [(("SUV", "ETH A"), 1), (("SUV", "ETH B"), 1)] := by
  decide

/-- Witness for C6: on the tie scenario both top ethnicities are
reported for the SUV body style. -/
theorem claim6_witness :
    (("SUV", "ETH A"), 1) ∈ a7core tiePersons tieUnits ∧
    (("SUV", "ETH B"), 1) ∈ a7core tiePersons tieUnits := by
  have hmax : ∀ eth2 n2, (("SUV", eth2), n2) ∈ q7groups tiePersons tieUnits → n2 ≤ 1 := by
    intro eth2 n2 hm
    rw [tieGroups_eval] at hm
    rcases List.mem_cons.mp hm with h1 | hm2
    · exact le_of_eq (congrArg Prod.snd h1)
    · rcases List.mem_cons.mp hm2 with h2 | h3
      · exact le_of_eq (congrArg Prod.snd h2)
      · exact absurd h3 (List.not_mem_nil _)
  constructor
  · exact (claim6_query7_all_top_ties tiePersons tieUnits "SUV" "ETH A" 1).mpr
      ⟨by decide, by rw [tieGroups_eval]; decide, hmax⟩
  · exact (claim6_query7_all_top_ties tiePersons tieUnits "SUV" "ETH B" 1).mpr
      ⟨by decide, by rw [tieGroups_eval]; decide, hmax⟩

/-- C4: query 10 equals the assembly that takes its three top-N cuts as
functions of the full respective tables (speed-charged driver set,
top-25 states, top-10 colors), so no cut is recomputed after any of the
restrictions, and the pipeline ends in join, dedupe by crash id,
group-by make, descending order, top 5. -/
theorem claim4_query10_cuts_on_full_tables (u : List UnitRow)
    (c : List ChargeRow) (p : List PersonRow) :
    a10core u c p = a10assembled u (speedChargedRows p c) (top25States p) (top10Colors u) :=
  rfl
